import Mathlib

/-!
Verification of the bathymetry dashboard (`src/bathymetry_dashboard.py`).

The script flattens per-vessel bathymetry point records, derives hazard
flags from the global flattened index, classifies each record with an
ordered if/else chain, converts hex colors to RGBA, filters by vessel /
category / time range, computes a map midpoint, and exports CSV and
GeoJSON.  Everything below is a shallow embedding of that code: Python
floats become rationals, pandas timestamps become an explicit calendar
structure, dictionaries become structures, and fallible parsing returns
`Option`.
-/

namespace Bathymetry

/-- Minimum safe depth, `MBS = 10` in the script's config section. -/
def MBS : ℚ := 10

/-- A timestamp as pandas stores it after `pd.to_datetime`: a UTC civil
time.  The script only ever compares timestamps chronologically and
re-renders them (`str` in CSV, `.isoformat()` in GeoJSON). -/
structure DateTime where
  year : Nat
  month : Nat
  day : Nat
  hour : Nat
  minute : Nat
  second : Nat
deriving DecidableEq, Repr

/-- Chronological key: seconds since a virtual origin, using padded radices
so that distinct civil times map to distinct keys in calendar order. -/
def DateTime.key (d : DateTime) : Nat :=
  d.second + 60 * (d.minute + 60 * (d.hour + 24 * (d.day + 32 * (d.month + 13 * d.year))))

/-- Chronological comparison of two timestamps (pandas `<=` on Timestamps). -/
def DateTime.le (a b : DateTime) : Bool :=
  a.key ≤ b.key

/-- Left-pad a number to two digits, as datetime rendering does. -/
def pad2 (n : Nat) : String :=
  if n < 10 then "0" ++ toString n else toString n

/-- Left-pad a number to four digits, as datetime rendering does. -/
def pad4 (n : Nat) : String :=
  if n < 10 then "000" ++ toString n
  else if n < 100 then "00" ++ toString n
  else if n < 1000 then "0" ++ toString n
  else toString n

/-- `Timestamp.isoformat()` for a UTC timestamp: `YYYY-MM-DDTHH:MM:SS+00:00`. -/
def DateTime.isoformat (d : DateTime) : String :=
  pad4 d.year ++ "-" ++ pad2 d.month ++ "-" ++ pad2 d.day ++ "T" ++
    pad2 d.hour ++ ":" ++ pad2 d.minute ++ ":" ++ pad2 d.second ++ "+00:00"

/-- `str(Timestamp)` for a UTC timestamp, as pandas renders it into CSV
cells: `YYYY-MM-DD HH:MM:SS+00:00` (space separator, not `T`). -/
def DateTime.strForm (d : DateTime) : String :=
  pad4 d.year ++ "-" ++ pad2 d.month ++ "-" ++ pad2 d.day ++ " " ++
    pad2 d.hour ++ ":" ++ pad2 d.minute ++ ":" ++ pad2 d.second ++ "+00:00"

/-- One raw point object from a vessel's `data` array (after JSON and
timestamp parsing): keys `vessel_id`, `latitude`, `longitude`, `depth`,
`timestamp`. -/
structure RawPoint where
  vessel_id : String
  latitude : ℚ
  longitude : ℚ
  depth : ℚ
  timestamp : DateTime
deriving DecidableEq, Repr

/-- One vessel object of the payload, holding its ordered `data` sequence. -/
structure Vessel where
  data : List RawPoint
deriving DecidableEq, Repr

/-- The top-level JSON payload.  The `vessels` key may be absent, which the
script handles with `vessel_data.get("vessels", [])`. -/
structure VesselPayload where
  vessels : Option (List Vessel)
deriving DecidableEq, Repr

/-- `vessel_data.get("vessels", [])`: the vessel list, defaulting to empty
when the key is missing. -/
def VesselPayload.getVessels (p : VesselPayload) : List Vessel :=
  p.vessels.getD []

/-- The flattening loop:
`all_points = []` then `for vessel in ...: all_points.extend(vessel["data"])`. -/
def all_points (p : VesselPayload) : List RawPoint :=
  p.getVessels.foldl (fun acc v => acc ++ v.data) []

/-- A dataframe row after the three flag assignments: the raw point fields
plus `is_rock`, `is_wreck`, `is_restricted`. -/
structure Record where
  vessel_id : String
  latitude : ℚ
  longitude : ℚ
  depth : ℚ
  timestamp : DateTime
  is_rock : Bool
  is_wreck : Bool
  is_restricted : Bool
deriving DecidableEq, Repr

/-- Flag derivation for the row at global dataframe index `i`:
`is_rock = depth < 1.5`, `is_wreck = (depth >= 3) & (depth < 5) & (index % 7 == 0)`,
`is_restricted = index % 13 == 0`. -/
def mkRecord (i : Nat) (pt : RawPoint) : Record :=
  { vessel_id := pt.vessel_id
    latitude := pt.latitude
    longitude := pt.longitude
    depth := pt.depth
    timestamp := pt.timestamp
    is_rock := decide (pt.depth < 3 / 2)
    is_wreck := decide (3 ≤ pt.depth) && decide (pt.depth < 5) && decide (i % 7 = 0)
    is_restricted := decide (i % 13 = 0) }

/-- Flag computation down the dataframe starting at index `k`:
`df.index` is the default RangeIndex, so row `i` of the flattened list gets
index `k + i`. -/
def processFrom (k : Nat) : List RawPoint → List Record
  | [] => []
  | pt :: ps => mkRecord k pt :: processFrom (k + 1) ps

/-- The whole flag-derivation pass over the flattened point list (indices
start at 0, the dataframe's default index). -/
def processPoints (ps : List RawPoint) : List Record :=
  processFrom 0 ps

/-- The `categorize` function: ordered if/elif chain producing
`(category, symbol, color)`.  First match wins. -/
def categorize (row : Record) : String × String × String :=
  if row.is_restricted then ("Restricted Zone", "⛔", "#FF4500")
  else if row.is_wreck then ("Wreck", "⚫", "#000000")
  else if row.is_rock then ("Rock", "🔺", "#FF0000")
  else if row.depth < MBS then ("Shallow Water", "⚠️", "#1E90FF")
  else if row.depth ≥ 30 then ("Deep Water", "—", "#FFFFFF")
  else ("Safe Water", "✓", "#32CD32")

/-- The six category triples of the classifier, as enumerated in the spec. -/
def categoryTable : List (String × String × String) :=
  [("Restricted Zone", "⛔", "#FF4500"),
   ("Wreck", "⚫", "#000000"),
   ("Rock", "🔺", "#FF0000"),
   ("Shallow Water", "⚠️", "#1E90FF"),
   ("Deep Water", "—", "#FFFFFF"),
   ("Safe Water", "✓", "#32CD32")]

/-- Value of one hex digit character, as Python's `int(_, 16)` accepts it:
`0-9`, `a-f`, `A-F`.  `none` on any other character (Python raises). -/
def hexDigitVal (c : Char) : Option Nat :=
  if 48 ≤ c.toNat ∧ c.toNat ≤ 57 then some (c.toNat - 48)
  else if 97 ≤ c.toNat ∧ c.toNat ≤ 102 then some (c.toNat - 97 + 10)
  else if 65 ≤ c.toNat ∧ c.toNat ≤ 70 then some (c.toNat - 65 + 10)
  else none

/-- `int(h[i:i+2], 16)`: parse the two characters at positions `i`, `i+1`
as one hex byte.  `none` when a character is missing or not a hex digit. -/
def hexByte (cs : List Char) (i : Nat) : Option Nat := do
  let c1 ← cs.get? i
  let c2 ← cs.get? (i + 1)
  let v1 ← hexDigitVal c1
  let v2 ← hexDigitVal c2
  pure (16 * v1 + v2)

/-- `hex_color.lstrip("#")`: drop every leading `#`. -/
def lstripHash : List Char → List Char
  | [] => []
  | c :: cs => if c = '#' then lstripHash cs else c :: cs

/-- The `hex_to_rgb` function:
`h = hex_color.lstrip("#")`; `[int(h[i:i+2], 16) for i in (0, 2, 4)] + [160]`.
Python raises on malformed input, so the embedding returns `Option`. -/
def hex_to_rgb (s : String) : Option (List Nat) := do
  let h := lstripHash s.data
  let r ← hexByte h 0
  let g ← hexByte h 2
  let b ← hexByte h 4
  pure [r, g, b, 160]

/-- A fully classified dataframe row: the record plus the columns added by
`df[["category","symbol","color"]] = df.apply(categorize, ...)` and
`df["rgb"] = df["color"].apply(hex_to_rgb)`. -/
structure CRecord where
  vessel_id : String
  latitude : ℚ
  longitude : ℚ
  depth : ℚ
  timestamp : DateTime
  is_rock : Bool
  is_wreck : Bool
  is_restricted : Bool
  category : String
  symbol : String
  color : String
  rgb : Option (List Nat)
deriving DecidableEq, Repr

/-- Row-wise classification: attach `category`, `symbol`, `color` from
`categorize` and `rgb` from `hex_to_rgb` of the color. -/
def classifyRecord (r : Record) : CRecord :=
  let t := categorize r
  { vessel_id := r.vessel_id
    latitude := r.latitude
    longitude := r.longitude
    depth := r.depth
    timestamp := r.timestamp
    is_rock := r.is_rock
    is_wreck := r.is_wreck
    is_restricted := r.is_restricted
    category := t.1
    symbol := t.2.1
    color := t.2.2
    rgb := hex_to_rgb t.2.2 }

/-- The whole data-processing pipeline from payload to classified rows:
flatten, derive flags by global index, classify each row. -/
def pipeline (p : VesselPayload) : List CRecord :=
  (processPoints (all_points p)).map classifyRecord

/-- The row predicate of the boolean mask in `df_filtered`: vessel selected,
category selected, and timestamp inside the inclusive `[lo, hi]` range. -/
def keepRow (sv : List String) (sh : List String) (lo hi : DateTime)
    (r : CRecord) : Bool :=
  decide (r.vessel_id ∈ sv) && decide (r.category ∈ sh) &&
    DateTime.le lo r.timestamp && DateTime.le r.timestamp hi

/-- `df_filtered`: the rows of `df` whose mask is true, in order.
`selected_vessels` and `selected_hazards` are the multiselect values, and
`time_range` the inclusive slider bounds. -/
def df_filtered (sv : List String) (sh : List String) (lo hi : DateTime)
    (rows : List CRecord) : List CRecord :=
  rows.filter (keepRow sv sh lo hi)

/-- Map center: mean latitude/longitude of the filtered rows when non-empty,
`(0, 0)` otherwise. -/
def midpoint (rows : List CRecord) : ℚ × ℚ :=
  if rows.isEmpty then (0, 0)
  else ((rows.map CRecord.latitude).sum / rows.length,
        (rows.map CRecord.longitude).sum / rows.length)

/-- The dataframe's column list at export time, in construction order: the
five raw-point keys, then the three flag columns, then the three columns
from `categorize`, then `rgb`. -/
def dfColumns : List String :=
  ["vessel_id", "latitude", "longitude", "depth", "timestamp",
   "is_rock", "is_wreck", "is_restricted", "category", "symbol", "color", "rgb"]

/-- How Python's `str` renders a numpy boolean into a CSV cell. -/
def boolCell (b : Bool) : String :=
  if b then "True" else "False"

/-- How a rational value is rendered into a CSV cell (the embedding's
canonical rational rendering stands in for Python float formatting). -/
def ratCell (q : ℚ) : String :=
  toString q

/-- How the `rgb` column (a Python list, or an error marker for a failed
conversion) renders into a CSV cell. -/
def rgbCell : Option (List Nat) → String
  | some l => toString l
  | none => "<error>"

/-- One CSV data line of `df_filtered.to_csv(index=False)`: every dataframe
column of the row, in `dfColumns` order. -/
def csvRow (r : CRecord) : List String :=
  [r.vessel_id, ratCell r.latitude, ratCell r.longitude, ratCell r.depth,
   r.timestamp.strForm, boolCell r.is_rock, boolCell r.is_wreck,
   boolCell r.is_restricted, r.category, r.symbol, r.color, rgbCell r.rgb]

/-- `df_filtered.to_csv(index=False)` as a list of lines of cells: the
header row (all dataframe columns) followed by one line per row. -/
def csvExport (rows : List CRecord) : List (List String) :=
  dfColumns :: rows.map csvRow

/-- The column set named by the spec for the CSV export.  Stated from the
spec's words, to be compared with `dfColumns` from the source. -/
def specCsvColumns : List String :=
  ["vessel_id", "latitude", "longitude", "depth", "category", "symbol", "timestamp"]

/-- The `properties` object of one GeoJSON feature. -/
structure GeoProperties where
  vessel_id : String
  depth : ℚ
  category : String
  timestamp : String
deriving DecidableEq, Repr

/-- One GeoJSON feature as the export builds it: type `"Feature"`, a Point
geometry with coordinates `[longitude, latitude]`, and the four properties. -/
structure Feature where
  type : String
  geometryType : String
  coordinates : List ℚ
  properties : GeoProperties
deriving DecidableEq, Repr

/-- The GeoJSON document: type `"FeatureCollection"` plus the feature list. -/
structure FeatureCollection where
  type : String
  features : List Feature
deriving DecidableEq, Repr

/-- The feature built for one filtered row: geometry coordinates
`[row["longitude"], row["latitude"]]` and properties
`{vessel_id, depth, category, timestamp.isoformat()}`. -/
def featureOf (r : CRecord) : Feature :=
  { type := "Feature"
    geometryType := "Point"
    coordinates := [r.longitude, r.latitude]
    properties :=
      { vessel_id := r.vessel_id
        depth := r.depth
        category := r.category
        timestamp := r.timestamp.isoformat } }

/-- The GeoJSON export: a FeatureCollection with one feature per filtered
row, in row order. -/
def geojsonExport (rows : List CRecord) : FeatureCollection :=
  { type := "FeatureCollection"
    features := rows.map featureOf }

/-! Concrete fixtures used to instantiate the theorems below. -/

/-- A fixed instant, `2024-01-01T00:00:00Z`. -/
def ts0 : DateTime :=
  { year := 2024, month := 1, day := 1, hour := 0, minute := 0, second := 0 }

/-- First point of vessel A (depth 4). -/
def rawA0 : RawPoint :=
  { vessel_id := "A", latitude := 1, longitude := 2, depth := 4, timestamp := ts0 }

/-- Second point of vessel A (depth 1). -/
def rawA1 : RawPoint :=
  { vessel_id := "A", latitude := 1, longitude := 2, depth := 1, timestamp := ts0 }

/-- Only point of vessel B (depth 4). -/
def rawB0 : RawPoint :=
  { vessel_id := "B", latitude := 3, longitude := 4, depth := 4, timestamp := ts0 }

/-- A payload with vessel A holding two points and vessel B one point. -/
def demoPayload : VesselPayload :=
  { vessels := some [{ data := [rawA0, rawA1] }, { data := [rawB0] }] }

/-- A flag-free record at depth exactly 10. -/
def rec10 : Record :=
  { vessel_id := "V", latitude := 0, longitude := 0, depth := 10, timestamp := ts0,
    is_rock := false, is_wreck := false, is_restricted := false }

/-- A flag-free record at depth exactly 30. -/
def rec30 : Record :=
  { vessel_id := "V", latitude := 0, longitude := 0, depth := 30, timestamp := ts0,
    is_rock := false, is_wreck := false, is_restricted := false }

/-- A record with every hazard flag set and a deep-water depth. -/
def recRestricted : Record :=
  { vessel_id := "V", latitude := 0, longitude := 0, depth := 50, timestamp := ts0,
    is_rock := true, is_wreck := true, is_restricted := true }

/-- The raw point of the spec's GeoJSON round-trip example:
lon `-70.5`, lat `42.1`, depth `12`, timestamp `2024-01-01T00:00:00Z`. -/
def safeRaw : RawPoint :=
  { vessel_id := "V1", latitude := 42.1, longitude := -70.5, depth := 12, timestamp := ts0 }

/-- The classified row the pipeline builds from `safeRaw` at global index 1
(no flag fires, depth 12 is between `MBS` and 30, so it is Safe Water). -/
def safeRec : CRecord :=
  classifyRecord (mkRecord 1 safeRaw)

/-! Helper lemmas. -/

/-- The `extend` loop accumulates exactly the concatenation of the `data`
sequences, whatever the accumulator already holds. -/
theorem foldl_extend_eq_join (vs : List Vessel) (acc : List RawPoint) :
    vs.foldl (fun a v => a ++ v.data) acc = acc ++ (vs.map Vessel.data).flatten := by
  induction vs generalizing acc with
  | nil => simp
  | cons v vs ih => simp [ih, List.append_assoc]

/-- Row `i` of the flag-derivation pass started at index `k` is the raw
point at position `i` with flags computed at index `k + i`. -/
theorem processFrom_get (ps : List RawPoint) (k i : Nat) :
    (processFrom k ps).get? i = (ps.get? i).map (fun pt => mkRecord (k + i) pt) := by
  induction ps generalizing k i with
  | nil => simp [processFrom]
  | cons p ps ih =>
    cases i with
    | zero => simp [processFrom]
    | succ n =>
      have e : k + (n + 1) = (k + 1) + n := by omega
      rw [e]
      simpa [processFrom] using ih (k + 1) n

/-- A parsed hex digit is at most 15. -/
theorem hexDigitVal_le (c : Char) (v : Nat) (h : hexDigitVal c = some v) : v ≤ 15 := by
  unfold hexDigitVal at h
  split_ifs at h with h1 h2 h3 <;> simp only [Option.some.injEq] at h <;> omega

/-- A hex digit is never the character `#`. -/
theorem hexDigitVal_ne_hash (c : Char) (v : Nat) (h : hexDigitVal c = some v) :
    c ≠ '#' := by
  intro hc
  subst hc
  have e : hexDigitVal '#' = none := by decide
  rw [e] at h
  cases h

/-- `lstrip("#")` leaves a list alone when its head is not `#`. -/
theorem lstripHash_cons_ne (c : Char) (cs : List Char) (h : ¬c = '#') :
    lstripHash (c :: cs) = c :: cs := by
  simp [lstripHash, h]

/-! Theorems for the claims. -/

/-- C1: `categorize` always returns one of the six enumerated
(category, symbol, color) triples, and evaluation is in strict priority
order: any record with `is_restricted = true` classifies as
"Restricted Zone" regardless of the other flags and the depth. -/
theorem c1_classifier_total_and_priority (r : Record) :
    categorize r ∈ categoryTable ∧
      (r.is_restricted = true → categorize r = ("Restricted Zone", "⛔", "#FF4500")) := by
  constructor
  · unfold categorize
    split_ifs <;> simp [categoryTable]
  · intro h
    simp [categorize, h]

/-- C1 witness: a record with all three flags set and depth 50 still
classifies as "Restricted Zone". -/
theorem c1_witness :
    categorize recRestricted = ("Restricted Zone", "⛔", "#FF4500") :=
  (c1_classifier_total_and_priority recRestricted).2 rfl

/-- C3: with all three hazard flags false, depth exactly 10 classifies as
"Safe Water" (the shallow test `depth < MBS` is strict) and depth exactly
30 classifies as "Deep Water" (the deep test `depth >= 30` is inclusive). -/
theorem c3_boundaries (r : Record) (h1 : r.is_rock = false) (h2 : r.is_wreck = false)
    (h3 : r.is_restricted = false) :
    (r.depth = 10 → categorize r = ("Safe Water", "✓", "#32CD32")) ∧
      (r.depth = 30 → categorize r = ("Deep Water", "—", "#FFFFFF")) := by
  constructor <;> intro hd <;> simp [categorize, h1, h2, h3, hd, MBS] <;> norm_num

/-- C3 witness: the two boundary records evaluated concretely. -/
theorem c3_witness :
    categorize rec10 = ("Safe Water", "✓", "#32CD32") ∧
      categorize rec30 = ("Deep Water", "—", "#FFFFFF") :=
  ⟨(c3_boundaries rec10 rfl rfl rfl).1 rfl, (c3_boundaries rec30 rfl rfl rfl).2 rfl⟩

/-- C9: a payload whose `vessels` key is missing yields an empty flattened
point sequence (the `.get("vessels", [])` default), with no error. -/
theorem c9_missing_vessels (p : VesselPayload) (h : p.vessels = none) :
    all_points p = [] := by
  simp [all_points, VesselPayload.getVessels, h]

/-- C9 witness: the concrete payload with no `vessels` key. -/
theorem c9_witness : all_points { vessels := none } = [] :=
  c9_missing_vessels { vessels := none } rfl

/-- C2: flattening concatenates each vessel's `data` sequence in payload
order, and the row at global flattened index `i` carries flags computed
from that global index: `is_rock` iff depth < 1.5, `is_wreck` iff
3 ≤ depth < 5 and `i % 7 = 0`, `is_restricted` iff `i % 13 = 0`. -/
theorem c2_flatten_and_global_flags (p : VesselPayload) :
    all_points p = (p.getVessels.map Vessel.data).flatten ∧
      ∀ i pt, (all_points p).get? i = some pt →
        (processPoints (all_points p)).get? i = some
          { vessel_id := pt.vessel_id
            latitude := pt.latitude
            longitude := pt.longitude
            depth := pt.depth
            timestamp := pt.timestamp
            is_rock := decide (pt.depth < 3 / 2)
            is_wreck := decide (3 ≤ pt.depth) && decide (pt.depth < 5) && decide (i % 7 = 0)
            is_restricted := decide (i % 13 = 0) } := by
  constructor
  · simpa using foldl_extend_eq_join p.getVessels []
  · intro i pt h
    have e := processFrom_get (all_points p) 0 i
    rw [Nat.zero_add] at e
    rw [processPoints]
    rw [e]
    simp only [h, Option.map_some]
    rfl

/-- C2 witness: for vessels A (2 points) and B (1 point), the flattened
sequence is [A0, A1, B0] and flags use global indices 0, 1, 2: index 0
(depth 4) is a wreck and restricted, index 2 (also depth 4) is neither. -/
theorem c2_witness :
    all_points demoPayload = [rawA0, rawA1, rawB0] ∧
      (processPoints (all_points demoPayload)).get? 0 = some
        { vessel_id := "A", latitude := 1, longitude := 2, depth := 4, timestamp := ts0,
          is_rock := false, is_wreck := true, is_restricted := true } ∧
      (processPoints (all_points demoPayload)).get? 2 = some
        { vessel_id := "B", latitude := 3, longitude := 4, depth := 4, timestamp := ts0,
          is_rock := false, is_wreck := false, is_restricted := false } := by
  refine ⟨?_, ?_, ?_⟩
  · have := (c2_flatten_and_global_flags demoPayload).1
    simpa [demoPayload, VesselPayload.getVessels] using this
  · have := (c2_flatten_and_global_flags demoPayload).2 0 rawA0 rfl
    simpa [rawA0, decide_eq_false (show ¬((4 : ℚ) < 3 / 2) from by norm_num),
      decide_eq_true (show (3 : ℚ) ≤ 4 from by norm_num),
      decide_eq_true (show (4 : ℚ) < 5 from by norm_num)] using this
  · have := (c2_flatten_and_global_flags demoPayload).2 2 rawB0 rfl
    simpa [rawB0, decide_eq_false (show ¬((4 : ℚ) < 3 / 2) from by norm_num)] using this

/-- C4: on an input of `#` followed by six hex digits, `hex_to_rgb` parses
the three consecutive digit pairs into bytes `r`, `g`, `b`, each at most
255, and appends the fixed alpha 160. -/
theorem c4_hex_to_rgba (d0 d1 d2 d3 d4 d5 : Char) (v0 v1 v2 v3 v4 v5 : Nat)
    (h0 : hexDigitVal d0 = some v0) (h1 : hexDigitVal d1 = some v1)
    (h2 : hexDigitVal d2 = some v2) (h3 : hexDigitVal d3 = some v3)
    (h4 : hexDigitVal d4 = some v4) (h5 : hexDigitVal d5 = some v5) :
    hex_to_rgb (String.mk ['#', d0, d1, d2, d3, d4, d5]) =
        some [16 * v0 + v1, 16 * v2 + v3, 16 * v4 + v5, 160] ∧
      16 * v0 + v1 ≤ 255 ∧ 16 * v2 + v3 ≤ 255 ∧ 16 * v4 + v5 ≤ 255 := by
  have b0 := hexDigitVal_le d0 v0 h0
  have b1 := hexDigitVal_le d1 v1 h1
  have b2 := hexDigitVal_le d2 v2 h2
  have b3 := hexDigitVal_le d3 v3 h3
  have b4 := hexDigitVal_le d4 v4 h4
  have b5 := hexDigitVal_le d5 v5 h5
  refine ⟨?_, by omega, by omega, by omega⟩
  have estrip : lstripHash (String.mk ['#', d0, d1, d2, d3, d4, d5]).data =
      [d0, d1, d2, d3, d4, d5] := by
    show lstripHash ('#' :: [d0, d1, d2, d3, d4, d5]) = _
    rw [show lstripHash ('#' :: [d0, d1, d2, d3, d4, d5]) =
          lstripHash [d0, d1, d2, d3, d4, d5] by simp [lstripHash]]
    exact lstripHash_cons_ne d0 _ (hexDigitVal_ne_hash d0 v0 h0)
  simp [hex_to_rgb, estrip, hexByte, h0, h1, h2, h3, h4, h5]

/-- C4 witness: the spec's concrete example, `#1E90FF` (DodgerBlue). -/
theorem c4_witness : hex_to_rgb "#1E90FF" = some [30, 144, 255, 160] := by
  have := (c4_hex_to_rgba '1' 'E' '9' '0' 'F' 'F' 1 14 9 0 15 15
    (by decide) (by decide) (by decide) (by decide) (by decide) (by decide)).1
  simpa using this

/-- C10: every color string `categorize` can return parses under
`hex_to_rgb` into four integers with the three color bytes at most 255 and
alpha exactly 160 — the composition never fails. -/
theorem c10_color_composition_total (r : Record) :
    ∃ rc gc bc : Nat,
      hex_to_rgb (categorize r).2.2 = some [rc, gc, bc, 160] ∧
        rc ≤ 255 ∧ gc ≤ 255 ∧ bc ≤ 255 := by
  unfold categorize
  split_ifs
  · exact ⟨255, 69, 0, by decide, by omega, by omega, by omega⟩
  · exact ⟨0, 0, 0, by decide, by omega, by omega, by omega⟩
  · exact ⟨255, 0, 0, by decide, by omega, by omega, by omega⟩
  · exact ⟨30, 144, 255, by decide, by omega, by omega, by omega⟩
  · exact ⟨255, 255, 255, by decide, by omega, by omega, by omega⟩
  · exact ⟨50, 205, 50, by decide, by omega, by omega, by omega⟩

/-- C5: `df_filtered` keeps exactly the rows satisfying the three
predicates conjunctively, is a subsequence of its input, and filtering an
already-filtered set by the same predicates is the identity. -/
theorem c5_filter_conjunctive_idempotent (sv sh : List String) (lo hi : DateTime)
    (rows : List CRecord) :
    (∀ r, r ∈ df_filtered sv sh lo hi rows ↔
        r ∈ rows ∧ r.vessel_id ∈ sv ∧ r.category ∈ sh ∧
          DateTime.le lo r.timestamp = true ∧ DateTime.le r.timestamp hi = true) ∧
      (df_filtered sv sh lo hi rows).Sublist rows ∧
      df_filtered sv sh lo hi (df_filtered sv sh lo hi rows) =
        df_filtered sv sh lo hi rows := by
  refine ⟨?_, List.filter_sublist _, ?_⟩
  · intro r
    simp [df_filtered, List.mem_filter, keepRow, and_assoc]
  · simp [df_filtered, List.filter_filter]

/-- C8: an empty vessel selection filters every row out, and the map-center
computation falls back to `(0, 0)` on any empty filtered set instead of
failing. -/
theorem c8_empty_result_and_midpoint (sh : List String) (lo hi : DateTime)
    (rows : List CRecord) :
    df_filtered [] sh lo hi rows = [] ∧
      (∀ l : List CRecord, l = [] → midpoint l = (0, 0)) := by
  constructor
  · simp [df_filtered, keepRow]
  · intro l hl
    subst hl
    simp [midpoint]

/-- C8 witness: a concrete one-row set filtered by the empty vessel
selection, and the midpoint of the empty set. -/
theorem c8_witness :
    df_filtered [] ["Safe Water"] ts0 ts0 [safeRec] = [] ∧
      midpoint ([] : List CRecord) = (0, 0) :=
  ⟨(c8_empty_result_and_midpoint ["Safe Water"] ts0 ts0 [safeRec]).1,
    (c8_empty_result_and_midpoint [] ts0 ts0 []).2 [] rfl⟩

/-- C7: the GeoJSON export is a FeatureCollection with one feature per row
in input order, each a Point whose coordinates are
`[longitude, latitude]` (longitude first) and whose properties are exactly
`vessel_id`, `depth`, `category` and the ISO-8601 timestamp. -/
theorem c7_geojson_shape (rows : List CRecord) :
    (geojsonExport rows).type = "FeatureCollection" ∧
      (geojsonExport rows).features.length = rows.length ∧
      ∀ i r, rows.get? i = some r →
        (geojsonExport rows).features.get? i = some
          { type := "Feature"
            geometryType := "Point"
            coordinates := [r.longitude, r.latitude]
            properties :=
              { vessel_id := r.vessel_id, depth := r.depth,
                category := r.category, timestamp := r.timestamp.isoformat } } := by
  refine ⟨rfl, by simp [geojsonExport], ?_⟩
  intro i r h
  simp only [List.get?_eq_getElem?] at h
  simp [geojsonExport, h, featureOf]

/-- The classified row built from the spec's example point, evaluated:
no flag fires and depth 12 is between MBS and 30, so it is Safe Water. -/
theorem safeRec_eval :
    safeRec =
      { vessel_id := "V1", latitude := 42.1, longitude := -70.5, depth := 12,
        timestamp := ts0, is_rock := false, is_wreck := false, is_restricted := false,
        category := "Safe Water", symbol := "✓", color := "#32CD32",
        rgb := some [50, 205, 50, 160] } := by
  have hr : ¬((12 : ℚ) < 3 / 2) := by norm_num
  have hs : ¬((12 : ℚ) < MBS) := by norm_num [MBS]
  have hd : ¬((12 : ℚ) ≥ 30) := by norm_num
  have hx : hex_to_rgb "#32CD32" = some [50, 205, 50, 160] := by decide
  simp [safeRec, classifyRecord, mkRecord, safeRaw, categorize,
    decide_eq_false hr, hs, hd, hx]

/-- C7 witness: the spec's round-trip example record yields coordinates
`[-70.5, 42.1]` and category `"Safe Water"`. -/
theorem c7_witness :
    (geojsonExport [safeRec]).features.get? 0 = some
      { type := "Feature"
        geometryType := "Point"
        coordinates := [-70.5, 42.1]
        properties :=
          { vessel_id := "V1", depth := 12, category := "Safe Water",
            timestamp := "2024-01-01T00:00:00+00:00" } } := by
  have := (c7_geojson_shape [safeRec]).2.2 0 safeRec rfl
  rw [this, safeRec_eval]
  have : ts0.isoformat = "2024-01-01T00:00:00+00:00" := by decide
  simp [this]

/-- C6 counterexample: the CSV export's header is the full dataframe
column list, which contains `is_rock` — a column outside the set the claim
names — already on the empty filtered set. -/
theorem c6_counterexample :
    (csvExport []).head? = some dfColumns ∧
      "is_rock" ∈ dfColumns ∧ "is_rock" ∉ specCsvColumns := by
  refine ⟨rfl, by decide, by decide⟩

/-- C6 (amended): the CSV export has a header row listing every dataframe
column (a strict superset of the seven named by the spec, which are all
present), followed by one line per record in order, each with exactly one
cell per column; the timestamp cell uses pandas `str` rendering
(`YYYY-MM-DD HH:MM:SS+00:00`, space-separated). -/
theorem c6_amended_csv_shape (rows : List CRecord) :
    (csvExport rows).head? = some dfColumns ∧
      (csvExport rows).length = rows.length + 1 ∧
      (∀ c, c ∈ specCsvColumns → c ∈ dfColumns) ∧
      ∀ i r, rows.get? i = some r →
        (csvExport rows).get? (i + 1) = some (csvRow r) ∧
          (csvRow r).length = dfColumns.length := by
  refine ⟨rfl, by simp [csvExport], by decide, ?_⟩
  intro i r h
  refine ⟨?_, by simp [csvRow, dfColumns]⟩
  simp only [List.get?_eq_getElem?] at h
  simp [csvExport, h]

/-- C6 witness: the example row serialized — line 1 of the export is its
cell list, with as many cells as there are columns. -/
theorem c6_witness :
    "vessel_id" ∈ dfColumns ∧
      (csvExport [safeRec]).get? 1 = some (csvRow safeRec) ∧
        (csvRow safeRec).length = dfColumns.length :=
  ⟨(c6_amended_csv_shape []).2.2.1 "vessel_id" (by decide),
    ((c6_amended_csv_shape [safeRec]).2.2.2 0 safeRec rfl).1,
    ((c6_amended_csv_shape [safeRec]).2.2.2 0 safeRec rfl).2⟩

end Bathymetry
